import Mathlib

/-!
# Trajectory playback of the OpenManipulator arm controller

A shallow embedding of `open_manipulator_position_ctrl/src/arm_controller.cpp`:
the planned-path callback, the fixed-rate `process()` tick and the two
target-pose callbacks, together with the statements of the specification that
concern them.

Modelling conventions.

* Joint positions are values of an arbitrary type `V` (the C++ `double`).  The
  only arithmetic the controller performs on them is the narrowing
  `float joint_position = ...positions[num]` of the planned-path callback; it
  is the parameter `toFloat : V → V` (narrow to single precision, widen back).
* `uint16_t` quantities (`waypoints`, `all_time_steps_`, `step_cnt`) are natural
  numbers, reduced modulo `65536` where the source stores into them.
* `joint_num_` is filled by `getParam` and compared with `uint8_t` counters.
  The constructor's loop `for (uint8_t num = 0; num < joint_num_; num++)`
  only terminates when `joint_num_ ≤ 255`, and
  `Eigen::MatrixXd::Zero(10, joint_num_)` needs it non-negative, so a
  constructed controller has `joint_num_` in `0 .. 255`: the field has type
  `Fin 256`, and the loops over `num < joint_num_` run over
  `0 .. joint_num_ - 1`.
* An access outside a container (`planned_path_positions(row, col)` outside
  the matrix, `positions[num]`, `trajectory[0]`, `joint_names[0]`,
  `joint_name[index]`, `position[index]` outside the vector) is undefined in
  C++ (Eigen's bounds assertion aborts, or the read leaves the allocation):
  the call that makes it has no result, and the model returns `none` for it.
* Logging (`ROS_INFO`), the 0.5 s settling sleep and the spinner are not
  modelled; `ROS_WARN` of the target callbacks is kept because the
  specification refers to it.
-/

namespace open_manipulator

/-- Values of the `arm` and `gripper` fields of `open_manipulator_msgs::State`. -/
inductive StateValue where
  | STOPPED
  | IS_MOVING
  deriving DecidableEq, Repr

/-- The `open_manipulator_msgs::State` message that `process()` publishes. -/
structure State where
  gripper : StateValue
  arm : StateValue
  deriving DecidableEq, Repr

/-- What `process()` hands to its publishers, in program order:
`gazebo_goal_joint_position_pub_[num].publish(goal_joint_position)` and
`arm_state_pub_.publish(state)`. -/
inductive Published (V : Type) where
  | goal_joint_position (num : Nat) (data : V)
  | arm_state (state : State)
  deriving DecidableEq, Repr

/-- One `trajectory_msgs::JointTrajectoryPoint`: the field the controller reads. -/
structure JointTrajectoryPoint (V : Type) where
  positions : List V
  deriving DecidableEq, Repr

/-- The `trajectory_msgs::JointTrajectory` fields the controller reads. -/
structure JointTrajectory (V : Type) where
  joint_names : List String
  points : List (JointTrajectoryPoint V)
  deriving DecidableEq, Repr

/-- The `moveit_msgs::RobotTrajectory` field the controller reads. -/
structure RobotTrajectory (V : Type) where
  joint_trajectory : JointTrajectory V
  deriving DecidableEq, Repr

/-- The `moveit_msgs::DisplayTrajectory` field the controller reads. -/
structure DisplayTrajectory (V : Type) where
  trajectory : List (RobotTrajectory V)
  deriving DecidableEq, Repr

/-- The struct `PlannedPathInfo` (gripper_controller.h, lines 55-59):
`uint16_t waypoints` and the matrix `planned_path_positions`, kept as its list
of rows. -/
structure PlannedPathInfo (V : Type) where
  waypoints : Nat
  planned_path_positions : List (List V)
  deriving DecidableEq, Repr

/-- The members of class `ArmController` that arm_controller.cpp uses, and the
function-local `static uint16_t step_cnt` of `process()` (line 285).  The
class declaration itself (arm_controller.h) is not among the sources; the
member types are the ones the sibling class `GripperController` declares for
the same members (gripper_controller.h, lines 68 and 92-96):
`bool using_gazebo_`, `bool is_moving_`, `uint16_t all_time_steps_` and
`PlannedPathInfo planned_path_info_`.  `joint_num_` is in `0 .. 255` (see the
conventions above). -/
structure ArmController (V : Type) where
  using_gazebo_ : Bool
  joint_num_ : Fin 256
  is_moving_ : Bool
  all_time_steps_ : Nat
  planned_path_info_ : PlannedPathInfo V
  step_cnt : Nat
  deriving DecidableEq, Repr

/-- The search of `std::string::find` on character lists: the least index at
which `pat` occurs in `s`, `none` (the source's `npos`) when it does not. -/
def findChars : List Char → List Char → Option Nat
  | [], pat => if pat = [] then some 0 else none
  | c :: cs, pat =>
    if pat.isPrefixOf (c :: cs) then some 0 else (findChars cs pat).map (· + 1)

/-- The call `str.find(s)` of `std::string`; `none` is `std::string::npos`. -/
def find (str s : String) : Option Nat :=
  findChars str.toList s.toList

/-- The read `planned_path_positions(row, col)`: `none` outside the matrix. -/
def coeff {V : Type} (m : List (List V)) (row col : Nat) : Option V :=
  match m[row]? with
  | none => none
  | some r => r[col]?

/-- The inner loop of the planned-path callback (lines 266-271) for one point,
for `num = 0 .. n - 1`: cell `num` of the row receives `positions[num]`
narrowed to `float`.  The loop has no result when the point has fewer than
`n` positions. -/
def storeRow {V : Type} (toFloat : V → V) :
    Nat → JointTrajectoryPoint V → Option (List V)
  | 0, _ => some []
  | num + 1, point =>
    match storeRow toFloat num point with
    | none => none
    | some row =>
      match point.positions[num]? with
      | none => none
      | some joint_position => some (row ++ [toFloat joint_position])

/-- The outer loop of the planned-path callback (lines 264-272) over the points
it visits: one row per point. -/
def storeRows {V : Type} (toFloat : V → V) (joint_num : Nat) :
    List (JointTrajectoryPoint V) → Option (List (List V))
  | [] => some []
  | point :: rest =>
    match storeRow toFloat joint_num point with
    | none => none
    | some row =>
      match storeRows toFloat joint_num rest with
      | none => none
      | some rows => some (row :: rows)

/-- The publishing loop of `process()` (lines 293-297), for
`num = 0 .. n - 1`: the value at the cursor row and column `num` goes to sink
`num`.  The loop has no result when a read is outside the matrix. -/
def publishGoals {V : Type} (m : List (List V)) (step_cnt : Nat) :
    Nat → Option (List (Published V))
  | 0 => some []
  | num + 1 =>
    match publishGoals m step_cnt num with
    | none => none
    | some out =>
      match coeff m step_cnt num with
      | none => none
      | some data => some (out ++ [Published.goal_joint_position num data])

namespace ArmController

variable {V : Type}

/-- The state the constructor leaves (lines 23-58): not moving, a buffer of ten
rows of `joint_num_` zeros, cursor `0`.  `all_time_steps_` is not initialised
by the constructor; its value is the parameter `all_time_steps`. -/
def constructed (zero : V) (using_gazebo : Bool) (joint_num : Fin 256)
    (all_time_steps : Nat) : ArmController V :=
  { using_gazebo_ := using_gazebo
    joint_num_ := joint_num
    is_moving_ := false
    all_time_steps_ := all_time_steps
    planned_path_info_ :=
      { waypoints := 10
        planned_path_positions := List.replicate 10 (List.replicate joint_num.val zero) }
    step_cnt := 0 }

/-- The callback `ArmController::displayPlannedPathMsgCallback` (lines 252-281).

The outer loop runs `point_num` over `0 .. waypoints - 1`, and `waypoints` is
`points.size()` reduced to 16 bits, hence at most `points.size()`: the points
visited are the first `waypoints` points.  `resize` followed by the two loops
writes every cell of the matrix. -/
def displayPlannedPathMsgCallback (toFloat : V → V) (s : ArmController V)
    (msg : DisplayTrajectory V) : Option (ArmController V) :=
  match msg.trajectory[0]? with
  | none => none
  | some trajectory0 =>
    match trajectory0.joint_trajectory.joint_names[0]? with
    | none => none
    | some joint_name0 =>
      if find joint_name0 "grip" = none then
        let joint_num : Nat := s.joint_num_.val % 256
        let waypoints : Nat := trajectory0.joint_trajectory.points.length % 65536
        match storeRows toFloat joint_num
            (trajectory0.joint_trajectory.points.take waypoints) with
        | none => none
        | some planned_path_positions =>
          some { s with
            planned_path_info_ :=
              { waypoints := waypoints
                planned_path_positions := planned_path_positions }
            all_time_steps_ := (((waypoints : Int) - 1) % 65536).toNat
            is_moving_ := true }
      else some s

/-- What the publishing part of a MOVING tick hands to the joint sinks (lines
291-298): nothing outside simulation mode, the cursor row otherwise. -/
def goalsAt (s : ArmController V) : Option (List (Published V)) :=
  if s.using_gazebo_ then
    publishGoals s.planned_path_info_.planned_path_positions s.step_cnt s.joint_num_.val
  else some []

/-- The tick `ArmController::process` (lines 283-322): the controller after the
tick and what the tick published; `none` when the tick reads outside the
buffer. -/
def process (s : ArmController V) : Option (ArmController V × List (Published V)) :=
  if s.is_moving_ then
    match goalsAt s with
    | none => none
    | some goals =>
      let next : ArmController V :=
        if s.step_cnt ≥ s.all_time_steps_ then
          { s with is_moving_ := false, step_cnt := 0 }
        else
          { s with step_cnt := (s.step_cnt + 1) % 65536 }
      some (next, goals ++ [Published.arm_state { gripper := .STOPPED, arm := .IS_MOVING }])
  else
    some (s, [Published.arm_state { gripper := .STOPPED, arm := .STOPPED }])

/-- The controller after `n` calls of `process()` with nothing in between;
`none` when one of the calls reads outside the buffer. -/
def stateAfter : Nat → ArmController V → Option (ArmController V)
  | 0, s => some s
  | n + 1, s =>
    match stateAfter n s with
    | none => none
    | some s1 =>
      match process s1 with
      | none => none
      | some r => some r.1

/-- What call number `n + 1` of `process()` publishes, counting from `s`. -/
def emitted (n : Nat) (s : ArmController V) : Option (List (Published V)) :=
  match stateAfter n s with
  | none => none
  | some s1 =>
    match process s1 with
    | none => none
    | some r => some r.2

/-! ## Vocabulary of the specification -/

/-- One joint command per value, in joint order: value number `num` goes to
sink `num`. -/
def jointCommands (values : List V) : List (Published V) :=
  values.enum.map fun x => Published.goal_joint_position x.1 x.2

/-- The joint commands among what a tick published: sink and payload. -/
def goalsOf (out : List (Published V)) : List (Nat × V) :=
  out.filterMap fun e =>
    match e with
    | Published.goal_joint_position num data => some (num, data)
    | Published.arm_state _ => none

/-- The status events among what a tick published. -/
def statesOf (out : List (Published V)) : List State :=
  out.filterMap fun e =>
    match e with
    | Published.goal_joint_position _ _ => none
    | Published.arm_state state => some state

/-- Playback of the waypoints `points` once `msg` has been handed to the
controller `s`: the callback arms a controller that is MOVING at the start of
each of the first `points.length` ticks and IDLE with cursor `0` after them,
call number `i + 1` of `process()` publishes the positions of waypoint `i`
(as stored, that is narrowed by `toFloat`) in joint order followed by the
MOVING status, and the call after the last waypoint publishes the STOPPED
status only. -/
def PlaysBack (toFloat : V → V) (s : ArmController V) (msg : DisplayTrajectory V)
    (points : List (JointTrajectoryPoint V)) : Prop :=
  ∃ armed, displayPlannedPathMsgCallback toFloat s msg = some armed ∧
    (∀ i, i < points.length →
      ∃ si, stateAfter i armed = some si ∧ si.is_moving_ = true) ∧
    (∀ k, points.length ≤ k →
      ∃ sk, stateAfter k armed = some sk ∧ sk.is_moving_ = false ∧ sk.step_cnt = 0) ∧
    (∀ i p, points[i]? = some p →
      emitted i armed = some (jointCommands (p.positions.map toFloat) ++
        [Published.arm_state { gripper := .STOPPED, arm := .IS_MOVING }])) ∧
    emitted points.length armed =
      some [Published.arm_state { gripper := .STOPPED, arm := .STOPPED }]

/-- The cursor range of the specification: `0 ≤ step_index ≤ waypoint_count - 1`
(the lower bound holds of every natural number). -/
def CursorInRange (s : ArmController V) : Prop :=
  (s.step_cnt : Int) ≤ (s.planned_path_info_.waypoints : Int) - 1

/-- The cursor row is a row of the buffer and has a column for every joint:
the reads `planned_path_positions(step_cnt, num)` of a tick are inside the
matrix. -/
def CursorRowInBuffer (s : ArmController V) : Prop :=
  ∃ row, s.planned_path_info_.planned_path_positions[s.step_cnt]? = some row ∧
    s.joint_num_.val ≤ row.length

/-- The controllers reached from the constructor by calls of `process()` and
of the planned-path callback, in any order and with any messages. -/
inductive Reachable (toFloat : V → V) (zero : V) : ArmController V → Prop where
  | constructed (using_gazebo : Bool) (joint_num : Fin 256) (all_time_steps : Nat) :
      Reachable toFloat zero
        (ArmController.constructed zero using_gazebo joint_num all_time_steps)
  | process {s s1 : ArmController V} {out : List (Published V)} :
      Reachable toFloat zero s → ArmController.process s = some (s1, out) →
      Reachable toFloat zero s1
  | displayPlannedPath {s s1 : ArmController V} (msg : DisplayTrajectory V) :
      Reachable toFloat zero s →
      displayPlannedPathMsgCallback toFloat s msg = some s1 →
      Reachable toFloat zero s1

/-- The controllers reached from the constructor when the planned-path
callback is only called on an IDLE controller and every arm path it is handed
has between 1 and 65535 points. -/
inductive ReachableWhenGuarded (toFloat : V → V) (zero : V) : ArmController V → Prop where
  | constructed (using_gazebo : Bool) (joint_num : Fin 256) (all_time_steps : Nat) :
      ReachableWhenGuarded toFloat zero
        (ArmController.constructed zero using_gazebo joint_num all_time_steps)
  | process {s s1 : ArmController V} {out : List (Published V)} :
      ReachableWhenGuarded toFloat zero s → ArmController.process s = some (s1, out) →
      ReachableWhenGuarded toFloat zero s1
  | displayPlannedPath {s s1 : ArmController V} (msg : DisplayTrajectory V)
      (t : RobotTrajectory V) (name : String) :
      ReachableWhenGuarded toFloat zero s →
      s.is_moving_ = false →
      msg.trajectory[0]? = some t →
      t.joint_trajectory.joint_names[0]? = some name →
      (find name "grip" = none →
        1 ≤ t.joint_trajectory.points.length ∧ t.joint_trajectory.points.length ≤ 65535) →
      displayPlannedPathMsgCallback toFloat s msg = some s1 →
      ReachableWhenGuarded toFloat zero s1

/-- The trajectory points with the given rows of positions. -/
def armPoints (rows : List (List ℚ)) : List (JointTrajectoryPoint ℚ) :=
  rows.map fun r => { positions := r }

/-- The arm group's trajectory with the given rows of positions. -/
def armTrajectory (rows : List (List ℚ)) : RobotTrajectory ℚ :=
  { joint_trajectory :=
      { joint_names := ["joint1", "joint2", "joint3", "joint4"]
        points := armPoints rows } }

/-- A planned path for the arm group with the given rows of positions. -/
def armPath (rows : List (List ℚ)) : DisplayTrajectory ℚ :=
  { trajectory := [armTrajectory rows] }

/-- A planned path for the gripper group. -/
def gripperPath : DisplayTrajectory ℚ :=
  { trajectory :=
      [{ joint_trajectory :=
          { joint_names := ["grip_joint", "grip_joint_sub"]
            points := [{ positions := [0, 0] }, { positions := [1, 1] }] } }] }

/-- The rows of the scenario of the specification (section 8, item 6): three
waypoints for four joints. -/
def scenarioRows : List (List ℚ) :=
  [[0, 0, 0, 0], [0.1, 0, 0, 0.05], [0.2, 0, 0, 0.1]]

/-- Rows of zeros for four joints, `n` of them. -/
def zeroRows (n : Nat) : List (List ℚ) :=
  List.replicate n [0, 0, 0, 0]

/-- A four-joint controller in simulation mode, as constructed. -/
def idle4 : ArmController ℚ :=
  ArmController.constructed 0 true 4 0

/-- A four-joint controller outside simulation mode, as constructed. -/
def idle4robot : ArmController ℚ :=
  ArmController.constructed 0 false 4 0

/-- A four-joint controller in simulation mode in the middle of a
three-waypoint playback: MOVING with the cursor on the last waypoint. -/
def moving2 : ArmController ℚ :=
  { using_gazebo_ := true
    joint_num_ := 4
    is_moving_ := true
    all_time_steps_ := 2
    planned_path_info_ :=
      { waypoints := 3
        planned_path_positions := [[0, 0, 0, 0], [1, 1, 1, 1], [2, 2, 2, 2]] }
    step_cnt := 2 }

/-- The same controller outside simulation mode. -/
def moving2robot : ArmController ℚ :=
  { moving2 with using_gazebo_ := false }

/-- The controller `idle4` after it was handed the scenario of the
specification and ticked twice: MOVING with the cursor on the last of the
three waypoints. -/
def playedTwice (toFloat : ℚ → ℚ) : ArmController ℚ :=
  { using_gazebo_ := true
    joint_num_ := 4
    is_moving_ := true
    all_time_steps_ := 2
    planned_path_info_ :=
      { waypoints := 3
        planned_path_positions :=
          [[toFloat 0, toFloat 0, toFloat 0, toFloat 0],
            [toFloat 0.1, toFloat 0, toFloat 0, toFloat 0.05],
            [toFloat 0.2, toFloat 0, toFloat 0, toFloat 0.1]] }
    step_cnt := 2 }

/-- The controller `playedTwice` after it was handed a one-waypoint arm path:
the buffer has one row and the cursor is still 2. -/
def overrun (toFloat : ℚ → ℚ) : ArmController ℚ :=
  { using_gazebo_ := true
    joint_num_ := 4
    is_moving_ := true
    all_time_steps_ := 0
    planned_path_info_ :=
      { waypoints := 1
        planned_path_positions := [[toFloat 5, toFloat 5, toFloat 5, toFloat 5]] }
    step_cnt := 2 }

/-- The controller `idle4` after it was handed an arm path with no waypoint:
MOVING with a buffer of zero rows. -/
def armedEmpty : ArmController ℚ :=
  { using_gazebo_ := true
    joint_num_ := 4
    is_moving_ := true
    all_time_steps_ := 65535
    planned_path_info_ := { waypoints := 0, planned_path_positions := [] }
    step_cnt := 0 }

theorem findChars_eq_none_iff (s pat : List Char) :
    findChars s pat = none ↔ ¬ pat <:+: s := by
  induction s with
  | nil =>
    by_cases h : pat = [] <;> simp [findChars, h]
  | cons c cs ih =>
    simp only [findChars]
    by_cases h : pat.isPrefixOf (c :: cs) = true
    · have hp : pat <+: c :: cs := List.isPrefixOf_iff_prefix.mp h
      simp [h, hp.isInfix]
    · have hp : ¬ pat <+: c :: cs := fun hp => h (List.isPrefixOf_iff_prefix.mpr hp)
      simp [h, ih, List.infix_cons_iff, hp]

/-- The row a waypoint with at least `joint_num` positions contributes. -/
theorem storeRow_of_le (toFloat : V → V) (joint_num : Nat) (p : JointTrajectoryPoint V)
    (h : joint_num ≤ p.positions.length) :
    storeRow toFloat joint_num p = some ((p.positions.take joint_num).map toFloat) := by
  induction joint_num with
  | zero => simp [storeRow]
  | succ n ih =>
    have hn : n < p.positions.length := by omega
    have hget : p.positions[n]? = some p.positions[n] := List.getElem?_eq_getElem hn
    simp only [storeRow, ih (by omega), hget, List.take_succ, Option.toList_some,
      List.map_append, List.map_cons, List.map_nil]

/-- A waypoint with fewer than `joint_num` positions makes the loop read
outside the vector. -/
theorem storeRow_of_lt (toFloat : V → V) (joint_num : Nat) (p : JointTrajectoryPoint V)
    (h : p.positions.length < joint_num) : storeRow toFloat joint_num p = none := by
  induction joint_num with
  | zero => omega
  | succ n ih =>
    by_cases hn : p.positions.length < n
    · simp [storeRow, ih hn]
    · have hnone : p.positions[n]? = none := List.getElem?_eq_none (by omega)
      simp only [storeRow, hnone]
      split <;> rfl

/-- The rows that waypoints with at least `joint_num` positions contribute. -/
theorem storeRows_of_le (toFloat : V → V) (joint_num : Nat)
    (points : List (JointTrajectoryPoint V))
    (h : ∀ p ∈ points, joint_num ≤ p.positions.length) :
    storeRows toFloat joint_num points =
      some (points.map fun p => (p.positions.take joint_num).map toFloat) := by
  induction points with
  | nil => rfl
  | cons p ps ih =>
    have hp := h p (List.mem_cons_self _ _)
    have hps := ih (fun q hq => h q (List.mem_cons_of_mem _ hq))
    simp [storeRows, storeRow_of_le toFloat joint_num p hp, hps]

theorem jointCommands_append_singleton (values : List V) (v : V) :
    jointCommands (values ++ [v]) =
      jointCommands values ++ [Published.goal_joint_position values.length v] := by
  simp [jointCommands, List.enum_append, List.enumFrom_singleton]

/-- The publishing loop on a row that has a column for every joint. -/
theorem publishGoals_of_row (m : List (List V)) (step_cnt n : Nat) (row : List V)
    (hrow : m[step_cnt]? = some row) (hn : n ≤ row.length) :
    publishGoals m step_cnt n = some (jointCommands (row.take n)) := by
  induction n with
  | zero => simp [publishGoals, jointCommands]
  | succ n ih =>
    have hlt : n < row.length := by omega
    have hget : row[n]? = some row[n] := List.getElem?_eq_getElem hlt
    have hlen : (row.take n).length = n := by simp [List.length_take]; omega
    simp only [publishGoals, ih (by omega), coeff, hrow, hget, List.take_succ,
      Option.toList_some, jointCommands_append_singleton, hlen]

/-- The publishing loop has no result when the cursor is not a row of the
buffer and there is a joint to publish. -/
theorem publishGoals_outside (m : List (List V)) (step_cnt n : Nat)
    (hrow : m[step_cnt]? = none) (hn : 0 < n) : publishGoals m step_cnt n = none := by
  induction n with
  | zero => omega
  | succ n ih =>
    simp only [publishGoals, coeff, hrow]
    split <;> rfl

/-- The state an accepted path leaves, when the waypoints it visits have a
position for every joint. -/
theorem displayPlannedPath_arm (toFloat : V → V) (s : ArmController V)
    (msg : DisplayTrajectory V) (t : RobotTrajectory V) (name : String)
    (h0 : msg.trajectory[0]? = some t)
    (h1 : t.joint_trajectory.joint_names[0]? = some name)
    (hg : find name "grip" = none)
    (hlen : ∀ p ∈ t.joint_trajectory.points.take (t.joint_trajectory.points.length % 65536),
      s.joint_num_.val ≤ p.positions.length) :
    displayPlannedPathMsgCallback toFloat s msg =
      some { s with
        planned_path_info_ :=
          { waypoints := t.joint_trajectory.points.length % 65536
            planned_path_positions :=
              (t.joint_trajectory.points.take (t.joint_trajectory.points.length % 65536)).map
                fun p => (p.positions.take s.joint_num_.val).map toFloat }
        all_time_steps_ :=
          ((((t.joint_trajectory.points.length % 65536 : Nat) : Int) - 1) % 65536).toNat
        is_moving_ := true } := by
  have hj : s.joint_num_.val % 256 = s.joint_num_.val := Nat.mod_eq_of_lt s.joint_num_.isLt
  simp only [displayPlannedPathMsgCallback, h0, h1, hg, hj, if_true,
    storeRows_of_le toFloat _ _ hlen]

/-- A gripper path leaves the controller as it is. -/
theorem displayPlannedPath_gripper (toFloat : V → V) (s : ArmController V)
    (msg : DisplayTrajectory V) (t : RobotTrajectory V) (name : String)
    (h0 : msg.trajectory[0]? = some t)
    (h1 : t.joint_trajectory.joint_names[0]? = some name)
    (hg : find name "grip" ≠ none) :
    displayPlannedPathMsgCallback toFloat s msg = some s := by
  simp only [displayPlannedPathMsgCallback, h0, h1, hg, if_false]

theorem process_idle (s : ArmController V) (h : s.is_moving_ = false) :
    process s = some (s, [Published.arm_state { gripper := .STOPPED, arm := .STOPPED }]) := by
  simp [process, h]

/-- A MOVING tick whose reads succeed. -/
theorem process_moving (s : ArmController V) (goals : List (Published V))
    (hm : s.is_moving_ = true) (hgoals : goalsAt s = some goals) :
    process s =
      some (if s.step_cnt ≥ s.all_time_steps_ then
          { s with is_moving_ := false, step_cnt := 0 }
        else { s with step_cnt := (s.step_cnt + 1) % 65536 },
        goals ++ [Published.arm_state { gripper := .STOPPED, arm := .IS_MOVING }]) := by
  simp [process, hm, hgoals]

/-- A MOVING tick whose reads leave the buffer has no result. -/
theorem process_outside (s : ArmController V)
    (hm : s.is_moving_ = true) (hgoals : goalsAt s = none) : process s = none := by
  simp [process, hm, hgoals]

theorem stateAfter_succ (n : Nat) (s s1 : ArmController V) (r : ArmController V × List (Published V))
    (h1 : stateAfter n s = some s1) (h2 : process s1 = some r) :
    stateAfter (n + 1) s = some r.1 := by
  simp [stateAfter, h1, h2]

theorem stateAfter_idle (s : ArmController V) (h : s.is_moving_ = false) (k : Nat) :
    stateAfter k s = some s := by
  induction k with
  | zero => rfl
  | succ k ih => simp [stateAfter, ih, process_idle s h]

theorem stateAfter_add (s s1 : ArmController V) (n m : Nat) (h : stateAfter n s = some s1) :
    stateAfter (n + m) s = stateAfter m s1 := by
  induction m with
  | zero => simpa [stateAfter] using h
  | succ m ih => simp [← Nat.add_assoc, stateAfter, ih]

/-- While the cursor is below the terminal index and the reads stay inside the
buffer, each tick advances the cursor by one. -/
theorem stateAfter_moving (s : ArmController V) (hm : s.is_moving_ = true)
    (hT : s.all_time_steps_ < 65536) (k : Nat) (hk : s.step_cnt + k ≤ s.all_time_steps_)
    (hread : ∀ j, j < k → ∃ goals, goalsAt { s with step_cnt := s.step_cnt + j } = some goals) :
    stateAfter k s = some { s with step_cnt := s.step_cnt + k } := by
  induction k with
  | zero => cases s; rfl
  | succ k ih =>
    have hprev := ih (by omega) (fun j hj => hread j (by omega))
    obtain ⟨goals, hgoals⟩ := hread k (by omega)
    have h2 : (s.step_cnt + k + 1) % 65536 = s.step_cnt + (k + 1) := by omega
    have h3 : ¬ s.step_cnt + k ≥ s.all_time_steps_ := by omega
    rw [stateAfter_succ k s _ _ hprev
      (process_moving { s with step_cnt := s.step_cnt + k } goals hm hgoals)]
    simp [h3, h2]

/-- After the tick at the terminal index the controller is IDLE with cursor 0. -/
theorem stateAfter_done (s : ArmController V) (hm : s.is_moving_ = true)
    (hT : s.all_time_steps_ < 65536) (hc : s.step_cnt ≤ s.all_time_steps_)
    (hread : ∀ j, j ≤ s.all_time_steps_ - s.step_cnt →
      ∃ goals, goalsAt { s with step_cnt := s.step_cnt + j } = some goals)
    (k : Nat) (hk : s.all_time_steps_ - s.step_cnt < k) :
    stateAfter k s = some { s with is_moving_ := false, step_cnt := 0 } := by
  obtain ⟨j, rfl⟩ : ∃ j, k = (s.all_time_steps_ - s.step_cnt) + (1 + j) :=
    ⟨k - (s.all_time_steps_ - s.step_cnt) - 1, by omega⟩
  have hlast : stateAfter (s.all_time_steps_ - s.step_cnt) s =
      some { s with step_cnt := s.step_cnt + (s.all_time_steps_ - s.step_cnt) } :=
    stateAfter_moving s hm hT _ (by omega) (fun j hj => hread j (by omega))
  obtain ⟨goals, hgoals⟩ := hread (s.all_time_steps_ - s.step_cnt) (Nat.le_refl _)
  have hone : stateAfter 1 { s with step_cnt := s.step_cnt + (s.all_time_steps_ - s.step_cnt) } =
      some { s with is_moving_ := false, step_cnt := 0 } := by
    have hge : s.step_cnt + (s.all_time_steps_ - s.step_cnt) ≥ s.all_time_steps_ := by omega
    rw [stateAfter_succ 0 _ _ _ rfl
      (process_moving { s with step_cnt := s.step_cnt + (s.all_time_steps_ - s.step_cnt) }
        goals hm hgoals)]
    simp [hge]
  rw [stateAfter_add s _ _ _ hlast, stateAfter_add _ _ 1 j hone, stateAfter_idle _ rfl]

/-- What tick `k + 1` publishes while the playback is under way. -/
theorem emitted_moving (s : ArmController V) (hm : s.is_moving_ = true)
    (hT : s.all_time_steps_ < 65536) (k : Nat) (hk : s.step_cnt + k ≤ s.all_time_steps_)
    (hread : ∀ j, j < k → ∃ goals, goalsAt { s with step_cnt := s.step_cnt + j } = some goals)
    (goals : List (Published V))
    (hgoals : goalsAt { s with step_cnt := s.step_cnt + k } = some goals) :
    emitted k s =
      some (goals ++ [Published.arm_state { gripper := .STOPPED, arm := .IS_MOVING }]) := by
  unfold emitted
  rw [stateAfter_moving s hm hT k hk hread]
  simp only [process_moving { s with step_cnt := s.step_cnt + k } goals hm hgoals]

/-- What the publishing loop reads at row `j` of a buffer that stores `points`
whose waypoints have exactly one position per joint. -/
theorem goalsAt_stored (toFloat : V → V) (armed : ArmController V)
    (points : List (JointTrajectoryPoint V)) (j : Nat) (p : JointTrajectoryPoint V)
    (hp : points[j]? = some p) (hlen : p.positions.length = armed.joint_num_.val)
    (hsim : armed.using_gazebo_ = true)
    (hbuf : armed.planned_path_info_.planned_path_positions =
      points.map fun q => (q.positions.take armed.joint_num_.val).map toFloat) :
    goalsAt { armed with step_cnt := j } = some (jointCommands (p.positions.map toFloat)) := by
  have hrow : armed.planned_path_info_.planned_path_positions[j]? =
      some (p.positions.map toFloat) := by
    rw [hbuf, List.getElem?_map, hp, ← hlen]
    simp only [Option.map_some', List.take_length]
  have hcols : armed.joint_num_.val ≤ (p.positions.map toFloat).length := by
    rw [List.length_map, hlen]
  unfold goalsAt
  simp only [hsim, if_true]
  rw [publishGoals_of_row _ j _ _ hrow hcols, List.take_of_length_le]
  rw [List.length_map, hlen]

/-- Playback of a controller armed with `points`, the cursor at `0` and the
terminal index at `points.length - 1`. -/
theorem playsBack_of_armed (toFloat : V → V) (s : ArmController V)
    (msg : DisplayTrajectory V) (points : List (JointTrajectoryPoint V))
    (armed : ArmController V)
    (hcb : displayPlannedPathMsgCallback toFloat s msg = some armed)
    (hN1 : 1 ≤ points.length) (hN2 : points.length ≤ 65535)
    (hvalid : ∀ p ∈ points, p.positions.length = armed.joint_num_.val)
    (hm : armed.is_moving_ = true) (hsim : armed.using_gazebo_ = true)
    (hcur : armed.step_cnt = 0)
    (hT : armed.all_time_steps_ = points.length - 1)
    (hbuf : armed.planned_path_info_.planned_path_positions =
      points.map fun q => (q.positions.take armed.joint_num_.val).map toFloat) :
    PlaysBack toFloat s msg points := by
  have hTlt : armed.all_time_steps_ < 65536 := by omega
  have hread : ∀ j, j < points.length →
      ∃ goals, goalsAt { armed with step_cnt := armed.step_cnt + j } = some goals := by
    intro j hj
    have hp : points[j]? = some points[j] := List.getElem?_eq_getElem hj
    rw [hcur, Nat.zero_add]
    exact ⟨_, goalsAt_stored toFloat armed points j _ hp
      (hvalid _ (List.getElem_mem _)) hsim hbuf⟩
  refine ⟨armed, hcb, ?_, ?_, ?_, ?_⟩
  · intro i hi
    exact ⟨_, stateAfter_moving armed hm hTlt i (by omega) (fun j hj => hread j (by omega)), hm⟩
  · intro k hk
    exact ⟨_, stateAfter_done armed hm hTlt (by omega) (fun j hj => hread j (by omega)) k
      (by omega), rfl, rfl⟩
  · intro i p hp
    have hi : i < points.length := by
      by_contra hcon
      rw [List.getElem?_eq_none (Nat.le_of_not_lt hcon)] at hp
      exact Option.noConfusion hp
    have hpm : p ∈ points := List.mem_iff_getElem?.mpr ⟨i, hp⟩
    have hg : goalsAt { armed with step_cnt := armed.step_cnt + i } =
        some (jointCommands (p.positions.map toFloat)) := by
      rw [hcur, Nat.zero_add]
      exact goalsAt_stored toFloat armed points i p hp (hvalid p hpm) hsim hbuf
    exact emitted_moving armed hm hTlt i (by omega) (fun j hj => hread j (by omega)) _ hg
  · unfold emitted
    rw [stateAfter_done armed hm hTlt (by omega) (fun j hj => hread j (by omega)) _ (by omega)]
    simp only [process_idle
      ({ armed with is_moving_ := false, step_cnt := 0 } : ArmController V) rfl]

/-! ## Playback (C1) -/

theorem armPath_head (rows : List (List ℚ)) :
    (armPath rows).trajectory[0]? = some (armTrajectory rows) := rfl

theorem armTrajectory_name (rows : List (List ℚ)) :
    (armTrajectory rows).joint_trajectory.joint_names[0]? = some "joint1" := rfl

theorem find_joint1 : find "joint1" "grip" = none := by decide

theorem armPoints_length (rows : List (List ℚ)) :
    (armTrajectory rows).joint_trajectory.points.length = rows.length := by
  simp [armTrajectory, armPoints]

theorem zeroRows_length (n : Nat) : (zeroRows n).length = n := by
  simp [zeroRows]

/-- What the callback leaves when it is handed a sample arm path whose rows
have a position for every joint. -/
theorem displayPlannedPath_armPath (toFloat : ℚ → ℚ) (s : ArmController ℚ)
    (rows : List (List ℚ)) (hrows : ∀ r ∈ rows, s.joint_num_.val ≤ r.length) :
    displayPlannedPathMsgCallback toFloat s (armPath rows) =
      some { s with
        planned_path_info_ :=
          { waypoints := rows.length % 65536
            planned_path_positions :=
              ((armPoints rows).take (rows.length % 65536)).map
                fun p => (p.positions.take s.joint_num_.val).map toFloat }
        all_time_steps_ := ((((rows.length % 65536 : Nat) : Int) - 1) % 65536).toNat
        is_moving_ := true } := by
  have hlen : ∀ p ∈ (armTrajectory rows).joint_trajectory.points.take
      ((armTrajectory rows).joint_trajectory.points.length % 65536),
      s.joint_num_.val ≤ p.positions.length := by
    intro p hp
    have hmem : p ∈ armPoints rows := List.mem_of_mem_take hp
    obtain ⟨r, hr, rfl⟩ := List.mem_map.mp hmem
    exact hrows r hr
  rw [displayPlannedPath_arm toFloat s (armPath rows) (armTrajectory rows) "joint1"
    (armPath_head rows) (armTrajectory_name rows) find_joint1 hlen, armPoints_length]
  rfl

theorem zeroRows_wide (n : Nat) (s : ArmController ℚ) (h : s.joint_num_.val ≤ 4) :
    ∀ r ∈ zeroRows n, s.joint_num_.val ≤ r.length := by
  intro r hr
  have : r = [0, 0, 0, 0] := List.eq_of_mem_replicate hr
  rw [this]
  exact h

/-- C1 (amended).  Playback of a loaded trajectory of at most 65535 waypoints:
for every planned arm path of `N` waypoints, `1 ≤ N ≤ 65535`, each with
`joint_num_` positions, handed to the planned-path callback while the
controller is IDLE with cursor 0 and in simulation mode, the controller is
MOVING at the start of exactly the first `N` following ticks and IDLE from the
end of tick `N` on, tick `i` publishes in joint order the positions of waypoint
`i` narrowed to single precision, and tick `N + 1` publishes no joint
command. -/
theorem C1_playback_up_to_65535_waypoints (toFloat : V → V) (s : ArmController V)
    (msg : DisplayTrajectory V) (t : RobotTrajectory V) (name : String)
    (h0 : msg.trajectory[0]? = some t)
    (h1 : t.joint_trajectory.joint_names[0]? = some name)
    (hg : find name "grip" = none)
    (hvalid : ∀ p ∈ t.joint_trajectory.points, p.positions.length = s.joint_num_.val)
    (hN1 : 1 ≤ t.joint_trajectory.points.length)
    (hN2 : t.joint_trajectory.points.length ≤ 65535)
    (hidle : s.is_moving_ = false) (hcur : s.step_cnt = 0)
    (hsim : s.using_gazebo_ = true) :
    PlaysBack toFloat s msg t.joint_trajectory.points := by
  have _ := hidle
  have hW : t.joint_trajectory.points.length % 65536 = t.joint_trajectory.points.length :=
    Nat.mod_eq_of_lt (by omega)
  have hlen : ∀ p ∈ t.joint_trajectory.points.take (t.joint_trajectory.points.length % 65536),
      s.joint_num_.val ≤ p.positions.length := by
    intro p hp
    exact Nat.le_of_eq (hvalid p (List.mem_of_mem_take hp)).symm
  refine playsBack_of_armed toFloat s msg t.joint_trajectory.points _
    (displayPlannedPath_arm toFloat s msg t name h0 h1 hg hlen) hN1 hN2 hvalid rfl hsim hcur
    ?_ ?_
  · show ((((t.joint_trajectory.points.length % 65536 : Nat) : Int) - 1) % 65536).toNat = _
    omega
  · show (List.take (t.joint_trajectory.points.length % 65536) _).map _ = _
    rw [hW, List.take_length]

/-- C1, witness: the scenario of the specification, three waypoints for four
joints, handed to the four-joint simulation controller as constructed. -/
theorem C1_witness_scenario :
    ((∀ p ∈ armPoints scenarioRows, p.positions.length = idle4.joint_num_.val) ∧
      1 ≤ (armPoints scenarioRows).length ∧ (armPoints scenarioRows).length ≤ 65535 ∧
      idle4.is_moving_ = false ∧ idle4.step_cnt = 0 ∧ idle4.using_gazebo_ = true) ∧
    ∀ toFloat : ℚ → ℚ, PlaysBack toFloat idle4 (armPath scenarioRows) (armPoints scenarioRows) :=
  ⟨⟨by decide, by decide, by decide, rfl, rfl, rfl⟩, fun toFloat =>
    C1_playback_up_to_65535_waypoints toFloat idle4 (armPath scenarioRows)
      (armTrajectory scenarioRows) "joint1" rfl rfl (by decide) (by decide) (by decide)
      (by decide) rfl rfl rfl⟩

/-- C1, counterexample: a valid trajectory of 65537 waypoints of four positions,
handed to the four-joint simulation controller while IDLE with cursor 0.  The
stored waypoint count is 1 and the terminal index 0: the controller is IDLE
after the first tick, so it is not MOVING at the start of tick 2, whatever the
narrowing does. -/
theorem C1_counterexample_65537_waypoints :
    ¬ ∃ toFloat : ℚ → ℚ,
      PlaysBack toFloat idle4 (armPath (zeroRows 65537)) (armPoints (zeroRows 65537)) := by
  rintro ⟨toFloat, armed, hcb, hmov, -⟩
  rw [displayPlannedPath_armPath toFloat idle4 _ (zeroRows_wide _ idle4 (by decide)),
    zeroRows_length] at hcb
  obtain ⟨s1, h1, hm1⟩ := hmov 1 (by simp [armPoints, zeroRows_length])
  rw [← Option.some.inj hcb] at h1
  have hrows : (armPoints (zeroRows 65537)).take (65537 % 65536) =
      [{ positions := [0, 0, 0, 0] }] := by
    show (armPoints (List.replicate (65536 + 1) [0, 0, 0, 0])).take 1 = _
    rw [List.replicate_succ]
    rfl
  rw [hrows] at h1
  have hstep : stateAfter 1
      ({ idle4 with
        planned_path_info_ :=
          { waypoints := 65537 % 65536
            planned_path_positions :=
              ([({ positions := [0, 0, 0, 0] } : JointTrajectoryPoint ℚ)]).map
                fun p => (p.positions.take idle4.joint_num_.val).map toFloat }
        all_time_steps_ := ((((65537 % 65536 : Nat) : Int) - 1) % 65536).toNat
        is_moving_ := true } : ArmController ℚ) =
      some { idle4 with
        planned_path_info_ :=
          { waypoints := 1
            planned_path_positions := [[toFloat 0, toFloat 0, toFloat 0, toFloat 0]] }
        all_time_steps_ := 0
        is_moving_ := false } := rfl
  rw [hstep] at h1
  rw [← Option.some.inj h1] at hm1
  exact Bool.noConfusion hm1

/-- The scenario of the specification evaluated on the model: ticks 1 to 3
publish the three waypoints (narrowed) with the MOVING status, tick 4
publishes the STOPPED status only. -/
theorem scenario_trace (toFloat : ℚ → ℚ) :
    ∃ armed, displayPlannedPathMsgCallback toFloat idle4 (armPath scenarioRows) = some armed ∧
      emitted 0 armed =
        some [Published.goal_joint_position 0 (toFloat 0),
          Published.goal_joint_position 1 (toFloat 0),
          Published.goal_joint_position 2 (toFloat 0),
          Published.goal_joint_position 3 (toFloat 0),
          Published.arm_state { gripper := .STOPPED, arm := .IS_MOVING }] ∧
      emitted 1 armed =
        some [Published.goal_joint_position 0 (toFloat 0.1),
          Published.goal_joint_position 1 (toFloat 0),
          Published.goal_joint_position 2 (toFloat 0),
          Published.goal_joint_position 3 (toFloat 0.05),
          Published.arm_state { gripper := .STOPPED, arm := .IS_MOVING }] ∧
      emitted 2 armed =
        some [Published.goal_joint_position 0 (toFloat 0.2),
          Published.goal_joint_position 1 (toFloat 0),
          Published.goal_joint_position 2 (toFloat 0),
          Published.goal_joint_position 3 (toFloat 0.1),
          Published.arm_state { gripper := .STOPPED, arm := .IS_MOVING }] ∧
      emitted 3 armed =
        some [Published.arm_state { gripper := .STOPPED, arm := .STOPPED }] :=
  ⟨_, rfl, rfl, rfl, rfl, rfl⟩

/-! ## Ingestion: overlapping, invalid and gripper paths (C2, C3, C4) -/

theorem reachable_stateAfter (toFloat : V → V) (zero : V) (n : Nat) (s s1 : ArmController V)
    (hr : Reachable toFloat zero s) (h : stateAfter n s = some s1) :
    Reachable toFloat zero s1 := by
  induction n generalizing s1 with
  | zero =>
    cases h
    exact hr
  | succ n ih =>
    simp only [stateAfter] at h
    split at h
    · exact Option.noConfusion h
    · rename_i s2 hs2
      split at h
      · exact Option.noConfusion h
      · rename_i r hr2
        cases h
        exact Reachable.process (ih s2 hs2) (by rw [hr2])

/-- The sample controller in the middle of the scenario is reachable:
construct, ingest the scenario, tick twice. -/
theorem reachable_playedTwice (toFloat : ℚ → ℚ) : Reachable toFloat 0 (playedTwice toFloat) := by
  have r0 : Reachable toFloat 0 idle4 := Reachable.constructed true 4 0
  have r1 := Reachable.displayPlannedPath (armPath scenarioRows) r0 rfl
  exact reachable_stateAfter toFloat 0 2 _ _ r1 rfl

/-- The sample controller whose cursor is outside its buffer is reachable:
one more ingestion, of a one-waypoint arm path. -/
theorem reachable_overrun (toFloat : ℚ → ℚ) : Reachable toFloat 0 (overrun toFloat) :=
  Reachable.displayPlannedPath (armPath [[5, 5, 5, 5]]) (reachable_playedTwice toFloat) rfl

/-- C2, failing input: the four-joint simulation controller ingests the
three-waypoint scenario and ticks twice; it is MOVING with cursor 2 when a
one-waypoint arm path arrives.  The callback does not refuse the path: it
replaces the buffer (waypoint count 3 to 1, terminal index 2 to 0, one row)
while the controller is MOVING, and the controller it leaves is not the one
it found. -/
theorem C2_overlapping_path_is_ingested (toFloat : ℚ → ℚ) :
    Reachable toFloat 0 (playedTwice toFloat) ∧
    (playedTwice toFloat).is_moving_ = true ∧
    (playedTwice toFloat).planned_path_info_.waypoints = 3 ∧
    (playedTwice toFloat).all_time_steps_ = 2 ∧
    displayPlannedPathMsgCallback toFloat (playedTwice toFloat) (armPath [[5, 5, 5, 5]]) =
      some (overrun toFloat) ∧
    (overrun toFloat).planned_path_info_.waypoints = 1 ∧
    (overrun toFloat).all_time_steps_ = 0 ∧
    (overrun toFloat).planned_path_info_.planned_path_positions =
      [[toFloat 5, toFloat 5, toFloat 5, toFloat 5]] ∧
    overrun toFloat ≠ playedTwice toFloat := by
  refine ⟨reachable_playedTwice toFloat, rfl, rfl, rfl, rfl, rfl, rfl, rfl, ?_⟩
  intro h
  have hw : (1 : Nat) = 3 := congrArg (fun s => s.planned_path_info_.waypoints) h
  exact absurd hw (by decide)

/-- C4.  Gripper filter: for every controller and every planned path whose
first joint name (of its first trajectory) contains "grip" at any position,
the planned-path callback returns the controller unchanged: buffer, terminal
index, cursor and MotionState are as they were (an IDLE controller stays
IDLE), and since the callback publishes nothing and the controller is the
same, the next tick publishes what it would have published. -/
theorem C4_gripper_path_changes_nothing (toFloat : V → V) (s : ArmController V)
    (msg : DisplayTrajectory V) (t : RobotTrajectory V) (name : String)
    (h0 : msg.trajectory[0]? = some t)
    (h1 : t.joint_trajectory.joint_names[0]? = some name)
    (hgrip : "grip".toList <:+: name.toList) :
    displayPlannedPathMsgCallback toFloat s msg = some s ∧
    ∀ s1, displayPlannedPathMsgCallback toFloat s msg = some s1 →
      s1.planned_path_info_ = s.planned_path_info_ ∧
      s1.all_time_steps_ = s.all_time_steps_ ∧ s1.step_cnt = s.step_cnt ∧
      s1.is_moving_ = s.is_moving_ ∧ process s1 = process s := by
  have hg : find name "grip" ≠ none := by
    intro hnone
    exact (findChars_eq_none_iff name.toList "grip".toList).mp hnone hgrip
  have hcb := displayPlannedPath_gripper toFloat s msg t name h0 h1 hg
  refine ⟨hcb, ?_⟩
  intro s1 hs1
  rw [hcb] at hs1
  cases hs1
  exact ⟨rfl, rfl, rfl, rfl, rfl⟩

/-- C4, witness: a gripper path (first joint name "grip_joint") handed to the
four-joint controller as constructed. -/
theorem C4_witness_gripper_path :
    "grip".toList <:+: "grip_joint".toList ∧
    ∀ toFloat : ℚ → ℚ,
      displayPlannedPathMsgCallback toFloat idle4 gripperPath = some idle4 :=
  ⟨⟨[], "_joint".toList, rfl⟩, fun toFloat =>
    (C4_gripper_path_changes_nothing toFloat idle4 gripperPath
      { joint_trajectory :=
          { joint_names := ["grip_joint", "grip_joint_sub"]
            points := [{ positions := [0, 0] }, { positions := [1, 1] }] } }
      "grip_joint" rfl rfl ⟨[], "_joint".toList, rfl⟩).1⟩

/-! ## Re-arming (C5) -/

/-- Playback of a valid arm path of at most 65535 waypoints handed to a
simulation controller whose cursor is 0. -/
theorem playsBack_valid (toFloat : V → V) (s : ArmController V)
    (msg : DisplayTrajectory V) (t : RobotTrajectory V) (name : String)
    (h0 : msg.trajectory[0]? = some t)
    (h1 : t.joint_trajectory.joint_names[0]? = some name)
    (hg : find name "grip" = none)
    (hvalid : ∀ p ∈ t.joint_trajectory.points, p.positions.length = s.joint_num_.val)
    (hN1 : 1 ≤ t.joint_trajectory.points.length)
    (hN2 : t.joint_trajectory.points.length ≤ 65535)
    (hcur : s.step_cnt = 0) (hsim : s.using_gazebo_ = true) :
    PlaysBack toFloat s msg t.joint_trajectory.points := by
  have hW : t.joint_trajectory.points.length % 65536 = t.joint_trajectory.points.length :=
    Nat.mod_eq_of_lt (by omega)
  have hlen : ∀ p ∈ t.joint_trajectory.points.take (t.joint_trajectory.points.length % 65536),
      s.joint_num_.val ≤ p.positions.length := by
    intro p hp
    exact Nat.le_of_eq (hvalid p (List.mem_of_mem_take hp)).symm
  refine playsBack_of_armed toFloat s msg t.joint_trajectory.points _
    (displayPlannedPath_arm toFloat s msg t name h0 h1 hg hlen) hN1 hN2 hvalid rfl hsim hcur
    ?_ ?_
  · show ((((t.joint_trajectory.points.length % 65536 : Nat) : Int) - 1) % 65536).toNat = _
    omega
  · show (List.take (t.joint_trajectory.points.length % 65536) _).map _ = _
    rw [hW, List.take_length]

/-- The planned-path callback keeps the joint count and the simulation flag. -/
theorem displayPlannedPath_keeps (toFloat : V → V) (s : ArmController V)
    (msg : DisplayTrajectory V) (t : RobotTrajectory V) (name : String) (s1 : ArmController V)
    (h0 : msg.trajectory[0]? = some t)
    (h1 : t.joint_trajectory.joint_names[0]? = some name)
    (hg : find name "grip" = none)
    (hcb : displayPlannedPathMsgCallback toFloat s msg = some s1) :
    s1.joint_num_ = s.joint_num_ ∧ s1.using_gazebo_ = s.using_gazebo_ := by
  simp only [displayPlannedPathMsgCallback, h0, h1, hg, if_true] at hcb
  split at hcb
  · exact Option.noConfusion hcb
  · cases hcb
    exact ⟨rfl, rfl⟩

/-- A tick keeps the joint count and the simulation flag. -/
theorem process_keeps (s s1 : ArmController V) (out : List (Published V))
    (h : process s = some (s1, out)) :
    s1.joint_num_ = s.joint_num_ ∧ s1.using_gazebo_ = s.using_gazebo_ := by
  unfold process at h
  split at h
  · split at h
    · exact Option.noConfusion h
    · simp only [Option.some.injEq, Prod.mk.injEq] at h
      obtain ⟨h1, -⟩ := h
      subst h1
      split <;> exact ⟨rfl, rfl⟩
  · simp only [Option.some.injEq, Prod.mk.injEq] at h
    obtain ⟨h1, -⟩ := h
    subst h1
    exact ⟨rfl, rfl⟩

/-- Ticks keep the joint count and the simulation flag. -/
theorem stateAfter_keeps (n : Nat) (s s1 : ArmController V) (h : stateAfter n s = some s1) :
    s1.joint_num_ = s.joint_num_ ∧ s1.using_gazebo_ = s.using_gazebo_ := by
  induction n generalizing s1 with
  | zero =>
    cases h
    exact ⟨rfl, rfl⟩
  | succ n ih =>
    simp only [stateAfter] at h
    split at h
    · exact Option.noConfusion h
    · rename_i s2 hs2
      split at h
      · exact Option.noConfusion h
      · rename_i r hr2
        cases h
        obtain ⟨a, b⟩ := ih s2 hs2
        obtain ⟨c, d⟩ := process_keeps s2 r.1 r.2 (by rw [hr2])
        exact ⟨c.trans a, d.trans b⟩

/-- C5 (amended).  Re-arming after completion, for trajectories of at most
65535 waypoints: for valid arm paths A (`1 ≤ N ≤ 65535` waypoints) and B
(`1 ≤ M ≤ 65535` waypoints, in any relation to `N`), after A has been ingested
(IDLE, cursor 0, simulation mode) and played for its `N` ticks the controller
is IDLE with cursor 0; ingesting B then leaves exactly the controller that
ingesting B without A would have left, and B is played back from its first
waypoint: `M` MOVING ticks publishing B's waypoints in order (narrowed to
single precision), then IDLE with cursor 0. -/
theorem C5_rearming_up_to_65535_waypoints (toFloat : V → V) (s : ArmController V)
    (msgA msgB : DisplayTrajectory V) (tA tB : RobotTrajectory V) (nameA nameB : String)
    (hA0 : msgA.trajectory[0]? = some tA)
    (hA1 : tA.joint_trajectory.joint_names[0]? = some nameA)
    (hAg : find nameA "grip" = none)
    (hAvalid : ∀ p ∈ tA.joint_trajectory.points, p.positions.length = s.joint_num_.val)
    (hAN1 : 1 ≤ tA.joint_trajectory.points.length)
    (hAN2 : tA.joint_trajectory.points.length ≤ 65535)
    (hB0 : msgB.trajectory[0]? = some tB)
    (hB1 : tB.joint_trajectory.joint_names[0]? = some nameB)
    (hBg : find nameB "grip" = none)
    (hBvalid : ∀ p ∈ tB.joint_trajectory.points, p.positions.length = s.joint_num_.val)
    (hBN1 : 1 ≤ tB.joint_trajectory.points.length)
    (hBN2 : tB.joint_trajectory.points.length ≤ 65535)
    (hidle : s.is_moving_ = false) (hcur : s.step_cnt = 0)
    (hsim : s.using_gazebo_ = true) :
    PlaysBack toFloat s msgA tA.joint_trajectory.points ∧
    ∃ armedA doneA, displayPlannedPathMsgCallback toFloat s msgA = some armedA ∧
      stateAfter tA.joint_trajectory.points.length armedA = some doneA ∧
      doneA.is_moving_ = false ∧ doneA.step_cnt = 0 ∧
      displayPlannedPathMsgCallback toFloat doneA msgB =
        displayPlannedPathMsgCallback toFloat s msgB ∧
      PlaysBack toFloat doneA msgB tB.joint_trajectory.points := by
  have hplayA : PlaysBack toFloat s msgA tA.joint_trajectory.points :=
    playsBack_valid toFloat s msgA tA nameA hA0 hA1 hAg hAvalid hAN1 hAN2 hcur hsim
  have _ := hidle
  refine ⟨hplayA, ?_⟩
  obtain ⟨armedA, hcbA, -, hdoneA, -, -⟩ := hplayA
  obtain ⟨doneA, hdone, hdm, hdc⟩ := hdoneA _ (Nat.le_refl _)
  have hfields := displayPlannedPath_keeps toFloat s msgA tA nameA armedA hA0 hA1 hAg hcbA
  have hkeep := stateAfter_keeps _ armedA doneA hdone
  have hdj : doneA.joint_num_ = s.joint_num_ := by rw [hkeep.1, hfields.1]
  have hdg : doneA.using_gazebo_ = s.using_gazebo_ := by rw [hkeep.2, hfields.2]
  have hBlen : ∀ (c : ArmController V), c.joint_num_ = s.joint_num_ →
      ∀ p ∈ tB.joint_trajectory.points.take (tB.joint_trajectory.points.length % 65536),
      c.joint_num_.val ≤ p.positions.length := by
    intro c hc p hp
    rw [hc]
    exact Nat.le_of_eq (hBvalid p (List.mem_of_mem_take hp)).symm
  refine ⟨armedA, doneA, hcbA, hdone, hdm, hdc, ?_, ?_⟩
  · rw [displayPlannedPath_arm toFloat doneA msgB tB nameB hB0 hB1 hBg (hBlen doneA hdj),
      displayPlannedPath_arm toFloat s msgB tB nameB hB0 hB1 hBg (hBlen s rfl)]
    cases doneA
    cases s
    simp only at hdj hdg hdc hcur
    simp [hdj, hdg, hdc, hcur]
  · exact playsBack_valid toFloat doneA msgB tB nameB hB0 hB1 hBg
      (fun p hp => by rw [hdj]; exact hBvalid p hp) hBN1 hBN2 hdc (by rw [hdg]; exact hsim)

/-- A MOVING tick at or past the terminal index leaves the controller IDLE,
if it has a result. -/
theorem stateAfter_one_terminal (s s1 : ArmController V) (hm : s.is_moving_ = true)
    (hc : s.step_cnt ≥ s.all_time_steps_) (h : stateAfter 1 s = some s1) :
    s1.is_moving_ = false := by
  cases hg : goalsAt s with
  | none =>
    simp [stateAfter, process_outside s hm hg] at h
  | some goals =>
    simp [stateAfter, process_moving s goals hm hg, hc] at h
    rw [← h]

/-- C5, witness: the scenario of the specification (three waypoints) played to
completion, then a path of four waypoints. -/
theorem C5_witness_scenario_then_four :
    ((∀ p ∈ armPoints scenarioRows, p.positions.length = idle4.joint_num_.val) ∧
      (∀ p ∈ armPoints (zeroRows 4), p.positions.length = idle4.joint_num_.val) ∧
      idle4.is_moving_ = false ∧ idle4.step_cnt = 0 ∧ idle4.using_gazebo_ = true) ∧
    ∀ toFloat : ℚ → ℚ,
      PlaysBack toFloat idle4 (armPath scenarioRows) (armPoints scenarioRows) ∧
      ∃ armedA doneA,
        displayPlannedPathMsgCallback toFloat idle4 (armPath scenarioRows) = some armedA ∧
        stateAfter 3 armedA = some doneA ∧
        doneA.is_moving_ = false ∧ doneA.step_cnt = 0 ∧
        displayPlannedPathMsgCallback toFloat doneA (armPath (zeroRows 4)) =
          displayPlannedPathMsgCallback toFloat idle4 (armPath (zeroRows 4)) ∧
        PlaysBack toFloat doneA (armPath (zeroRows 4)) (armPoints (zeroRows 4)) :=
  ⟨⟨by decide, by decide, rfl, rfl, rfl⟩, fun toFloat =>
    C5_rearming_up_to_65535_waypoints toFloat idle4 (armPath scenarioRows) (armPath (zeroRows 4))
      (armTrajectory scenarioRows) (armTrajectory (zeroRows 4)) "joint1" "joint1"
      rfl rfl (by decide) (by decide) (by decide) (by decide)
      rfl rfl (by decide) (by decide) (by decide) (by decide) rfl rfl rfl⟩

/-- C5, counterexample: after the scenario of the specification has been played
to completion, a valid trajectory B of 65537 waypoints is ingested.  Its stored
waypoint count is 1 and its terminal index 0: the controller is IDLE after one
tick and not MOVING at the start of tick 2 of B, whatever the narrowing
does. -/
theorem C5_counterexample_second_path_65537 :
    ¬ ∃ (toFloat : ℚ → ℚ) (armedA doneA : ArmController ℚ),
      displayPlannedPathMsgCallback toFloat idle4 (armPath scenarioRows) = some armedA ∧
      stateAfter 3 armedA = some doneA ∧
      PlaysBack toFloat doneA (armPath (zeroRows 65537)) (armPoints (zeroRows 65537)) := by
  rintro ⟨toFloat, armedA, doneA, hcbA, hdone, armedB, hcb, hmov, -⟩
  have hkA := displayPlannedPath_keeps toFloat idle4 (armPath scenarioRows)
    (armTrajectory scenarioRows) "joint1" armedA rfl rfl find_joint1 hcbA
  have hkD := stateAfter_keeps 3 armedA doneA hdone
  have hj : doneA.joint_num_.val ≤ 4 := by
    rw [hkD.1, hkA.1]
    decide
  rw [displayPlannedPath_armPath toFloat doneA _ (zeroRows_wide _ doneA hj),
    zeroRows_length] at hcb
  obtain ⟨s1, h1, hm1⟩ := hmov 1 (by simp [armPoints, zeroRows_length])
  rw [← Option.some.inj hcb] at h1
  have hidle := stateAfter_one_terminal _ s1 rfl (by dsimp only; omega) h1
  rw [hidle] at hm1
  exact Bool.noConfusion hm1

/-! ## Direct-target requests (C6) -/

theorem statesOf_jointCommands (values : List V) (st : State) :
    statesOf (jointCommands values ++ [Published.arm_state st]) = [st] := by
  simp [statesOf, jointCommands, List.filterMap_append, List.filterMap_map]

theorem goalsOf_jointCommands (values : List V) (st : State) :
    goalsOf (jointCommands values ++ [Published.arm_state st]) = values.enum := by
  have h : ((fun e : Published V =>
        match e with
        | Published.goal_joint_position num data => some (num, data)
        | Published.arm_state _ => none) ∘
      fun x : Nat × V => Published.goal_joint_position x.1 x.2) = some := by
    funext x
    rfl
  simp [goalsOf, jointCommands, List.filterMap_append, List.filterMap_map, h]

/-- The reads of a tick whose cursor row is inside the buffer. -/
theorem goalsAt_of_row (s : ArmController V) (row : List V)
    (hrow : s.planned_path_info_.planned_path_positions[s.step_cnt]? = some row)
    (hn : s.joint_num_.val ≤ row.length) :
    goalsAt s =
      some (if s.using_gazebo_ = true then jointCommands (row.take s.joint_num_.val) else []) := by
  unfold goalsAt
  cases hf : s.using_gazebo_
  · simp
  · simp [publishGoals_of_row _ _ _ row hrow hn]

/-- One status per tick, where the tick stays inside the buffer: when the
cursor row of a MOVING simulation-mode controller is inside the buffer (any
other controller does not read the buffer), one call of `process()` returns
and publishes exactly one status, whose gripper state is STOPPED and whose arm
state is MOVING exactly when the tick began MOVING; a tick that begins IDLE
publishes that status only and leaves the controller as it was. -/
theorem one_status_per_tick_inside_buffer (s : ArmController V)
    (hrow : s.is_moving_ = true → s.using_gazebo_ = true → CursorRowInBuffer s) :
    ∃ next out, process s = some (next, out) ∧
      statesOf out =
        [{ gripper := StateValue.STOPPED
           arm := if s.is_moving_ = true then StateValue.IS_MOVING else StateValue.STOPPED }] ∧
      (s.is_moving_ = false →
        next = s ∧ out = [Published.arm_state { gripper := .STOPPED, arm := .STOPPED }]) := by
  cases hm : s.is_moving_
  · exact ⟨s, _, process_idle s hm, by simp [statesOf], fun _ => ⟨rfl, rfl⟩⟩
  · cases hf : s.using_gazebo_
    · have hg : goalsAt s = some [] := by simp [goalsAt, hf]
      refine ⟨_, _, process_moving s [] hm hg, by simp [statesOf], ?_⟩
      intro h
      exact Bool.noConfusion h
    · obtain ⟨row, hr, hn⟩ := hrow hm hf
      have hg := goalsAt_of_row s row hr hn
      rw [hf] at hg
      refine ⟨_, _, process_moving s _ hm hg, ?_, ?_⟩
      · simp only [if_true]
        exact statesOf_jointCommands _ _
      · intro h
        exact Bool.noConfusion h

/-- The sample controller left by an arm path with no waypoint is reachable:
construct, ingest the empty path. -/
theorem reachable_armedEmpty (toFloat : ℚ → ℚ) : Reachable toFloat 0 armedEmpty :=
  Reachable.displayPlannedPath (armPath []) (Reachable.constructed true 4 0) rfl

/-- C7, failing input: the four-joint simulation controller, IDLE as
constructed, is handed an arm path with no waypoint.  The controller reached
is MOVING with a buffer of zero rows, and its next tick reads row 0 of that
buffer for its first joint command: the call of `process()` has no result, so
no status is published. -/
theorem C7_no_status_outside_buffer (toFloat : ℚ → ℚ) :
    displayPlannedPathMsgCallback toFloat idle4 (armPath []) = some armedEmpty ∧
    Reachable toFloat 0 armedEmpty ∧
    armedEmpty.is_moving_ = true ∧ armedEmpty.using_gazebo_ = true ∧
    armedEmpty.planned_path_info_.planned_path_positions = [] ∧
    armedEmpty.step_cnt = 0 ∧
    process armedEmpty = none :=
  ⟨rfl, reachable_armedEmpty toFloat, rfl, rfl, rfl, rfl, rfl⟩

/-- C8 (amended).  The simulation-mode flag gates the joint commands and
nothing else: for every controller whose cursor row is inside the buffer when
it is MOVING (the row has at least `joint_num_` values) and either value of
the flag, one call of `process()` returns, yields the same next controller (up
to the flag itself) and publishes the same status; the joint commands are one
per joint, carrying the first `joint_num_` values of the cursor row, when the
tick begins MOVING with the flag set, and there is none when the flag is
clear. -/
theorem C8_flag_gates_joint_commands_only (s : ArmController V) (row : List V)
    (hrow : s.is_moving_ = true →
      s.planned_path_info_.planned_path_positions[s.step_cnt]? = some row ∧
      s.joint_num_.val ≤ row.length) :
    ∀ flag : Bool, ∃ out,
      process { s with using_gazebo_ := flag } =
        some (
          (if s.is_moving_ = true then
            if s.step_cnt ≥ s.all_time_steps_ then
              { s with using_gazebo_ := flag, is_moving_ := false, step_cnt := 0 }
            else { s with using_gazebo_ := flag, step_cnt := (s.step_cnt + 1) % 65536 }
           else { s with using_gazebo_ := flag }), out) ∧
      statesOf out =
        [{ gripper := StateValue.STOPPED
           arm := if s.is_moving_ = true then StateValue.IS_MOVING else StateValue.STOPPED }] ∧
      goalsOf out =
        (if s.is_moving_ = true ∧ flag = true then (row.take s.joint_num_.val).enum else []) := by
  intro flag
  by_cases hm : s.is_moving_ = true
  · obtain ⟨hr, hn⟩ := hrow hm
    have hg := goalsAt_of_row { s with using_gazebo_ := flag } row hr hn
    have hp := process_moving { s with using_gazebo_ := flag } _ hm hg
    refine ⟨(if flag = true then jointCommands (row.take s.joint_num_.val) else []) ++
      [Published.arm_state { gripper := .STOPPED, arm := .IS_MOVING }], ?_, ?_, ?_⟩
    · rw [hp]
      by_cases hc : s.step_cnt ≥ s.all_time_steps_
      · simp only [hm, hc, if_true]
      · simp only [hm, hc, if_true, if_false]
    · cases flag
      · simp [statesOf, hm]
      · simp only [if_true, hm]
        exact statesOf_jointCommands _ _
    · cases flag
      · simp [goalsOf]
      · simp only [if_true, and_self, hm]
        exact goalsOf_jointCommands _ _
  · have hf : s.is_moving_ = false := by simpa using hm
    refine ⟨[Published.arm_state { gripper := .STOPPED, arm := .STOPPED }], ?_, ?_, ?_⟩
    · rw [process_idle { s with using_gazebo_ := flag } hf]
      simp [hf]
    · simp [statesOf, hm]
    · simp [goalsOf, hm]

/-- C8, witness: the sample controller, MOVING with the cursor on its last
waypoint, whose row is 2, 2, 2, 2. -/
theorem C8_witness_moving2 :
    (moving2.is_moving_ = true →
      moving2.planned_path_info_.planned_path_positions[moving2.step_cnt]? =
        some [2, 2, 2, 2] ∧
      moving2.joint_num_.val ≤ [(2 : ℚ), 2, 2, 2].length) ∧
    ∀ flag : Bool, ∃ out,
      process { moving2 with using_gazebo_ := flag } =
        some (
          (if moving2.is_moving_ = true then
            if moving2.step_cnt ≥ moving2.all_time_steps_ then
              { moving2 with using_gazebo_ := flag, is_moving_ := false, step_cnt := 0 }
            else
              { moving2 with using_gazebo_ := flag, step_cnt := (moving2.step_cnt + 1) % 65536 }
           else { moving2 with using_gazebo_ := flag }), out) ∧
      statesOf out =
        [{ gripper := StateValue.STOPPED
           arm := if moving2.is_moving_ = true then StateValue.IS_MOVING
                  else StateValue.STOPPED }] ∧
      goalsOf out =
        (if moving2.is_moving_ = true ∧ flag = true then
          (([(2 : ℚ), 2, 2, 2]).take moving2.joint_num_.val).enum
         else []) :=
  ⟨fun _ => ⟨rfl, by decide⟩,
    C8_flag_gates_joint_commands_only moving2 [2, 2, 2, 2] (fun _ => ⟨rfl, by decide⟩)⟩

/-- C8, counterexample: the sample controller, MOVING with the cursor on its
last waypoint, once with the simulation-mode flag set and once with it clear.
With the flag set the tick publishes four joint commands, with the flag clear
it publishes none: the two ticks do not publish the same joint commands. -/
theorem C8_counterexample_flag_changes_commands :
    (process moving2).map (fun r => goalsOf r.2) = some [(0, 2), (1, 2), (2, 2), (3, 2)] ∧
    (process moving2robot).map (fun r => goalsOf r.2) = some [] ∧
    (process moving2).map (fun r => goalsOf r.2) ≠
      (process moving2robot).map (fun r => goalsOf r.2) := by
  have h1 : (process moving2).map (fun r => goalsOf r.2) =
      some [(0, 2), (1, 2), (2, 2), (3, 2)] := rfl
  have h2 : (process moving2robot).map (fun r => goalsOf r.2) = some [] := rfl
  refine ⟨h1, h2, ?_⟩
  rw [h1, h2]
  intro h
  exact List.cons_ne_nil _ _ (Option.some.inj h)

/-! ## The cursor and the buffer (C9) -/

/-- The controller a tick leaves, when the tick returns. -/
theorem process_next (s s1 : ArmController V) (out : List (Published V))
    (h : process s = some (s1, out)) :
    s1 = if s.is_moving_ = true then
        if s.step_cnt ≥ s.all_time_steps_ then { s with is_moving_ := false, step_cnt := 0 }
        else { s with step_cnt := (s.step_cnt + 1) % 65536 }
      else s := by
  by_cases hm : s.is_moving_ = true
  · cases hg : goalsAt s with
    | none =>
      rw [process_outside s hm hg] at h
      exact Option.noConfusion h
    | some goals =>
      rw [process_moving s goals hm hg] at h
      simp only [Option.some.injEq, Prod.mk.injEq] at h
      rw [if_pos hm, ← h.1]
  · have hf : s.is_moving_ = false := by simpa using hm
    rw [process_idle s hf] at h
    simp only [Option.some.injEq, Prod.mk.injEq] at h
    rw [if_neg hm, ← h.1]

theorem storeRow_length (toFloat : V → V) (joint_num : Nat) (p : JointTrajectoryPoint V)
    (row : List V) (h : storeRow toFloat joint_num p = some row) : row.length = joint_num := by
  by_cases hlt : p.positions.length < joint_num
  · rw [storeRow_of_lt toFloat joint_num p hlt] at h
    exact Option.noConfusion h
  · rw [storeRow_of_le toFloat joint_num p (by omega)] at h
    cases h
    simp
    omega

theorem storeRows_shape (toFloat : V → V) (joint_num : Nat)
    (points : List (JointTrajectoryPoint V)) (rows : List (List V))
    (h : storeRows toFloat joint_num points = some rows) :
    rows.length = points.length ∧ ∀ r ∈ rows, r.length = joint_num := by
  induction points generalizing rows with
  | nil =>
    cases h
    exact ⟨rfl, fun r hr => absurd hr (List.not_mem_nil r)⟩
  | cons p ps ih =>
    simp only [storeRows] at h
    split at h
    · exact Option.noConfusion h
    · rename_i row hrow
      split at h
      · exact Option.noConfusion h
      · rename_i rest hrest
        cases h
        obtain ⟨h1, h2⟩ := ih rest hrest
        refine ⟨by simp [h1], ?_⟩
        intro r hr
        rcases List.mem_cons.mp hr with rfl | hr
        · exact storeRow_length toFloat joint_num p _ hrow
        · exact h2 r hr

/-- What the callback leaves when it accepts an arm path: the rows are those
of the loops over the first `waypoints` points. -/
theorem displayPlannedPath_arm_some (toFloat : V → V) (s s1 : ArmController V)
    (msg : DisplayTrajectory V) (t : RobotTrajectory V) (name : String)
    (h0 : msg.trajectory[0]? = some t)
    (h1 : t.joint_trajectory.joint_names[0]? = some name)
    (hg : find name "grip" = none)
    (hcb : displayPlannedPathMsgCallback toFloat s msg = some s1) :
    ∃ rows,
      storeRows toFloat s.joint_num_.val
        (t.joint_trajectory.points.take (t.joint_trajectory.points.length % 65536)) =
          some rows ∧
      s1 = { s with
        planned_path_info_ :=
          { waypoints := t.joint_trajectory.points.length % 65536
            planned_path_positions := rows }
        all_time_steps_ :=
          ((((t.joint_trajectory.points.length % 65536 : Nat) : Int) - 1) % 65536).toNat
        is_moving_ := true } := by
  simp only [displayPlannedPathMsgCallback, h0, h1, hg, if_true] at hcb
  have hJ : s.joint_num_.val % 256 = s.joint_num_.val := Nat.mod_eq_of_lt s.joint_num_.isLt
  rw [hJ] at hcb
  split at hcb
  · exact Option.noConfusion hcb
  · rename_i rows hrows
    cases hcb
    exact ⟨rows, hrows, rfl⟩

/-- In every reachable controller that is IDLE the cursor is 0. -/
theorem reachable_idle_cursor (toFloat : V → V) (zero : V) (s : ArmController V)
    (hr : Reachable toFloat zero s) : s.is_moving_ = false → s.step_cnt = 0 := by
  induction hr with
  | constructed using_gazebo joint_num all_time_steps => intro _; rfl
  | @process s s1 out _ hp ih =>
    intro h
    rw [process_next s s1 out hp] at h ⊢
    by_cases hm : s.is_moving_ = true
    · by_cases hc : s.step_cnt ≥ s.all_time_steps_
      · simp [hm, hc]
      · simp [hm, hc] at h
    · have hf : s.is_moving_ = false := by simpa using hm
      simp only [hm, if_false] at h ⊢
      exact ih hf
  | @displayPlannedPath s s1 msg _ hcb ih =>
    intro h
    cases h0 : msg.trajectory[0]? with
    | none => simp [displayPlannedPathMsgCallback, h0] at hcb
    | some t =>
      cases h1 : t.joint_trajectory.joint_names[0]? with
      | none => simp [displayPlannedPathMsgCallback, h0, h1] at hcb
      | some name =>
        by_cases hg : find name "grip" = none
        · obtain ⟨rows, -, rfl⟩ :=
            displayPlannedPath_arm_some toFloat s s1 msg t name h0 h1 hg hcb
          exact Bool.noConfusion h
        · rw [displayPlannedPath_gripper toFloat s msg t name h0 h1 hg] at hcb
          cases hcb
          exact ih h

/-- When the planned-path callback is only called on an IDLE controller and
with arm paths of 1 to 65535 points, the cursor stays inside the buffer: in
every controller reached, the cursor is in `0 .. waypoint_count - 1`, the
cursor row is a row of the buffer with a value for every joint, and the next
call of `process()` returns. -/
theorem guarded_cursor_in_range (toFloat : V → V) (zero : V) (s : ArmController V)
    (hr : ReachableWhenGuarded toFloat zero s) :
    CursorInRange s ∧ CursorRowInBuffer s ∧ ∃ r, process s = some r := by
  have key : s.planned_path_info_.planned_path_positions.length =
        s.planned_path_info_.waypoints ∧
      1 ≤ s.planned_path_info_.waypoints ∧
      (s.is_moving_ = true →
        s.step_cnt ≤ s.all_time_steps_ ∧
        s.all_time_steps_ + 1 = s.planned_path_info_.waypoints ∧
        s.planned_path_info_.waypoints ≤ 65535) ∧
      (s.is_moving_ = false → s.step_cnt = 0) ∧
      (∀ r ∈ s.planned_path_info_.planned_path_positions, r.length = s.joint_num_.val) := by
    induction hr with
    | constructed using_gazebo joint_num all_time_steps =>
      refine ⟨by simp [constructed], by simp [constructed], ?_, fun _ => rfl, ?_⟩
      · intro h
        exact Bool.noConfusion h
      · intro r hr
        have : r = List.replicate joint_num.val zero := List.eq_of_mem_replicate hr
        rw [this]
        simp [constructed]
    | @process s s1 out _ hp ih =>
      obtain ⟨h1, h2, h3, h4, h5⟩ := ih
      rw [process_next s s1 out hp]
      by_cases hm : s.is_moving_ = true
      · obtain ⟨h6, h7, h8⟩ := h3 hm
        by_cases hc : s.step_cnt ≥ s.all_time_steps_
        · rw [if_pos hm, if_pos hc]
          refine ⟨h1, h2, ?_, fun _ => rfl, h5⟩
          intro h
          exact Bool.noConfusion h
        · have hlt : s.step_cnt + 1 < 65536 := by omega
          rw [if_pos hm, if_neg hc]
          refine ⟨h1, h2, ?_, ?_, h5⟩
          · intro _
            show (s.step_cnt + 1) % 65536 ≤ s.all_time_steps_ ∧ _
            rw [Nat.mod_eq_of_lt hlt]
            exact ⟨by omega, h7, h8⟩
          · intro h
            have h9 : s.is_moving_ = false := h
            rw [hm] at h9
            exact Bool.noConfusion h9
      · rw [if_neg hm]
        exact ⟨h1, h2, h3, h4, h5⟩
    | @displayPlannedPath s s1 msg t name _ hidle h0 h1 hP hcb ih =>
      obtain ⟨i1, i2, i3, i4, i5⟩ := ih
      by_cases hg : find name "grip" = none
      · obtain ⟨hP1, hP2⟩ := hP hg
        obtain ⟨rows, hrows, rfl⟩ :=
          displayPlannedPath_arm_some toFloat s s1 msg t name h0 h1 hg hcb
        obtain ⟨hl, hw⟩ := storeRows_shape toFloat _ _ rows hrows
        have hW : t.joint_trajectory.points.length % 65536 = t.joint_trajectory.points.length :=
          Nat.mod_eq_of_lt (by omega)
        refine ⟨?_, by dsimp only; omega, ?_, ?_, hw⟩
        · dsimp only
          rw [hl, hW, List.take_length]
        · intro _
          dsimp only
          rw [i4 hidle]
          omega
        · intro h
          exact Bool.noConfusion h
      · rw [displayPlannedPath_gripper toFloat s msg t name h0 h1 hg] at hcb
        cases hcb
        exact ⟨i1, i2, i3, i4, i5⟩
  obtain ⟨k1, k2, k3, k4, k5⟩ := key
  have hcur : s.step_cnt < s.planned_path_info_.waypoints := by
    by_cases hm : s.is_moving_ = true
    · obtain ⟨a, b, _⟩ := k3 hm
      omega
    · have hf : s.is_moving_ = false := by simpa using hm
      rw [k4 hf]
      omega
  have hrow : CursorRowInBuffer s := by
    have hlt : s.step_cnt < s.planned_path_info_.planned_path_positions.length := by
      rw [k1]
      exact hcur
    refine ⟨s.planned_path_info_.planned_path_positions[s.step_cnt],
      List.getElem?_eq_getElem hlt, ?_⟩
    exact Nat.le_of_eq (k5 _ (List.getElem_mem hlt)).symm
  refine ⟨?_, hrow, ?_⟩
  · unfold CursorInRange
    omega
  · obtain ⟨next, out, hp, -⟩ := one_status_per_tick_inside_buffer s (fun _ _ => hrow)
    exact ⟨_, hp⟩

/-- C9, failing input: from the four-joint simulation controller as
constructed, ingest the three-waypoint scenario, tick twice, ingest a
one-waypoint arm path.  The controller reached is MOVING with cursor 2 while
its waypoint count is 1 and its buffer has one row: the cursor is outside
`0 .. waypoint_count - 1`, and the next tick reads row 2 of a one-row buffer
for its joint commands, so the call of `process()` has no result. -/
theorem C9_cursor_leaves_buffer (toFloat : ℚ → ℚ) :
    ∃ s : ArmController ℚ, Reachable toFloat 0 s ∧
      s.is_moving_ = true ∧ s.using_gazebo_ = true ∧ s.step_cnt = 2 ∧
      s.planned_path_info_.waypoints = 1 ∧
      s.planned_path_info_.planned_path_positions.length = 1 ∧
      ¬ CursorInRange s ∧
      process s = none := by
  refine ⟨overrun toFloat, reachable_overrun toFloat, rfl, rfl, rfl, rfl, rfl, ?_, rfl⟩
  have h : ¬ ((2 : Int) ≤ (1 : Int) - 1) := by decide
  exact h

/-! ## 16-bit waypoint count (C10) -/

/-- A tick reads nothing from the buffer when the simulation-mode flag is
clear or the controller has no joint. -/
theorem goalsAt_without_reads (s : ArmController V)
    (h : s.using_gazebo_ = false ∨ s.joint_num_.val = 0) : goalsAt s = some [] := by
  unfold goalsAt
  rcases h with h | h
  · simp [h]
  · rw [h]
    cases s.using_gazebo_ <;> rfl

/-- A MOVING controller with terminal index 65535 and cursor 0 whose ticks
read nothing from the buffer is MOVING at the start of each of the next 65536
ticks and IDLE with cursor 0 after them. -/
theorem full_run_without_reads (armed : ArmController V) (hm : armed.is_moving_ = true)
    (hT : armed.all_time_steps_ = 65535) (hc : armed.step_cnt = 0)
    (hmode : armed.using_gazebo_ = false ∨ armed.joint_num_.val = 0) :
    (∀ k, k < 65536 → ∃ sk, stateAfter k armed = some sk ∧ sk.is_moving_ = true) ∧
    ∃ sk, stateAfter 65536 armed = some sk ∧ sk.is_moving_ = false ∧ sk.step_cnt = 0 := by
  have hread : ∀ j : Nat, ∃ goals,
      goalsAt { armed with step_cnt := armed.step_cnt + j } = some goals :=
    fun j => ⟨[], goalsAt_without_reads { armed with step_cnt := armed.step_cnt + j } hmode⟩
  constructor
  · intro k hk
    exact ⟨{ armed with step_cnt := armed.step_cnt + k },
      stateAfter_moving armed hm (by omega) k (by omega) (fun j _ => hread j), hm⟩
  · exact ⟨{ armed with is_moving_ := false, step_cnt := 0 },
      stateAfter_done armed hm (by omega) (by omega) (fun j _ => hread j) 65536 (by omega),
      rfl, rfl⟩

/-- C10 (amended).  16-bit waypoint arithmetic: for every accepted planned path
with `P` points (each point the callback visits having at least `joint_num_`
positions) the callback stores waypoint count `W = P mod 65536`, leaves a
buffer of `W` rows, sets the terminal index to `(W - 1) mod 65536` and arms
MOVING.  The terminal index is `P - 1` exactly when `1 ≤ P ≤ 65536`.  When `P`
is a multiple of 65536 (0 included) the buffer has zero rows and the terminal
index is 65535; if then the cursor is 0 when the path is accepted and the
ticks read nothing from the buffer (simulation-mode flag clear, or no joint),
the controller is MOVING at the start of each of the next 65536 ticks and IDLE
with cursor 0 after them. -/
theorem C10_sixteen_bit_waypoint_count (toFloat : V → V) (s : ArmController V)
    (msg : DisplayTrajectory V) (t : RobotTrajectory V) (name : String)
    (h0 : msg.trajectory[0]? = some t)
    (h1 : t.joint_trajectory.joint_names[0]? = some name)
    (hg : find name "grip" = none)
    (hlen : ∀ p ∈ t.joint_trajectory.points.take (t.joint_trajectory.points.length % 65536),
      s.joint_num_.val ≤ p.positions.length) :
    ∃ armed, displayPlannedPathMsgCallback toFloat s msg = some armed ∧
      armed.planned_path_info_.waypoints = t.joint_trajectory.points.length % 65536 ∧
      armed.planned_path_info_.planned_path_positions.length =
        t.joint_trajectory.points.length % 65536 ∧
      (armed.all_time_steps_ : Int) =
        ((armed.planned_path_info_.waypoints : Int) - 1) % 65536 ∧
      armed.is_moving_ = true ∧
      ((armed.all_time_steps_ : Int) = (t.joint_trajectory.points.length : Int) - 1 ↔
        1 ≤ t.joint_trajectory.points.length ∧ t.joint_trajectory.points.length ≤ 65536) ∧
      (t.joint_trajectory.points.length % 65536 = 0 →
        armed.planned_path_info_.planned_path_positions = [] ∧
        armed.all_time_steps_ = 65535 ∧
        (s.step_cnt = 0 → (s.using_gazebo_ = false ∨ s.joint_num_.val = 0) →
          (∀ k, k < 65536 → ∃ sk, stateAfter k armed = some sk ∧ sk.is_moving_ = true) ∧
          ∃ sk, stateAfter 65536 armed = some sk ∧ sk.is_moving_ = false ∧ sk.step_cnt = 0)) := by
  refine ⟨_, displayPlannedPath_arm toFloat s msg t name h0 h1 hg hlen, rfl, ?_, ?_, rfl, ?_, ?_⟩
  · have hle : t.joint_trajectory.points.length % 65536 ≤ t.joint_trajectory.points.length :=
      Nat.mod_le _ _
    simp [List.length_take, hle]
  · dsimp only
    omega
  · dsimp only
    constructor
    · intro h
      omega
    · intro h
      omega
  · intro hW
    have hT : ((((t.joint_trajectory.points.length % 65536 : Nat) : Int) - 1) % 65536).toNat
        = 65535 := by omega
    refine ⟨?_, hT, ?_⟩
    · simp [hW]
    · intro hcur hmode
      exact full_run_without_reads _ rfl hT hcur hmode

/-- C10, witness: the four-joint controller as constructed, outside simulation
mode, and the sample arm path with no waypoint (`P = 0`). -/
theorem C10_witness_empty_path :
    ((armPath []).trajectory[0]? = some (armTrajectory []) ∧
      (armTrajectory []).joint_trajectory.joint_names[0]? = some "joint1" ∧
      find "joint1" "grip" = none ∧
      (∀ p ∈ (armTrajectory []).joint_trajectory.points.take
          ((armTrajectory []).joint_trajectory.points.length % 65536),
        idle4robot.joint_num_.val ≤ p.positions.length) ∧
      idle4robot.step_cnt = 0 ∧ idle4robot.using_gazebo_ = false) ∧
    ∀ toFloat : ℚ → ℚ,
      ∃ armed, displayPlannedPathMsgCallback toFloat idle4robot (armPath []) = some armed ∧
        armed.planned_path_info_.waypoints = 0 ∧
        armed.planned_path_info_.planned_path_positions = [] ∧
        armed.all_time_steps_ = 65535 ∧
        (∀ k, k < 65536 → ∃ sk, stateAfter k armed = some sk ∧ sk.is_moving_ = true) ∧
        ∃ sk, stateAfter 65536 armed = some sk ∧ sk.is_moving_ = false ∧ sk.step_cnt = 0 := by
  refine ⟨⟨rfl, rfl, by decide, by decide, rfl, rfl⟩, ?_⟩
  intro toFloat
  obtain ⟨armed, hcb, hw, -, -, -, -, hzero⟩ :=
    C10_sixteen_bit_waypoint_count toFloat idle4robot (armPath []) (armTrajectory []) "joint1"
      rfl rfl (by decide) (by decide)
  obtain ⟨hbuf, hT, hticks⟩ := hzero rfl
  exact ⟨armed, hcb, hw, hbuf, hT, (hticks rfl (Or.inl rfl)).1, (hticks rfl (Or.inl rfl)).2⟩

/-- C10, counterexample.  First, the four-joint controller outside simulation
mode, IDLE as constructed, accepts an arm path with 65536 points: the terminal
index is 65535, which is `P - 1` although `P` is not in `1 .. 65535`.  Second,
the sample controller outside simulation mode, MOVING with cursor 2, accepts
the arm path with no waypoint: it is IDLE after 65534 ticks, so it is not
MOVING at the start of each of the next 65536 ticks.  Third, the four-joint
simulation controller, IDLE as constructed, accepts the arm path with no
waypoint: its first tick reads row 0 of the zero-row buffer and has no result.
No part of the statement holds there, whatever the narrowing does. -/
theorem C10_counterexample_65536_points :
    (¬ ∃ (toFloat : ℚ → ℚ) (armed : ArmController ℚ),
      displayPlannedPathMsgCallback toFloat idle4robot (armPath (zeroRows 65536)) =
        some armed ∧
      ((armed.all_time_steps_ : Int) = ((zeroRows 65536).length : Int) - 1 ↔
        1 ≤ (zeroRows 65536).length ∧ (zeroRows 65536).length ≤ 65535)) ∧
    (¬ ∃ (toFloat : ℚ → ℚ) (armed : ArmController ℚ),
      displayPlannedPathMsgCallback toFloat moving2robot (armPath []) = some armed ∧
      ∀ k, k < 65536 → ∃ sk, stateAfter k armed = some sk ∧ sk.is_moving_ = true) ∧
    (¬ ∃ (toFloat : ℚ → ℚ) (armed : ArmController ℚ)
        (r : ArmController ℚ × List (Published ℚ)),
      displayPlannedPathMsgCallback toFloat idle4 (armPath []) = some armed ∧
      process armed = some r) := by
  refine ⟨?_, ?_, ?_⟩
  · rintro ⟨toFloat, armed, hcb, h⟩
    rw [displayPlannedPath_armPath toFloat idle4robot _ (zeroRows_wide _ idle4robot (by decide)),
      zeroRows_length] at hcb
    have harmed := Option.some.inj hcb
    rw [zeroRows_length, ← harmed] at h
    dsimp only at h
    omega
  · rintro ⟨toFloat, armed, hcb, h⟩
    have hcb2 : displayPlannedPathMsgCallback toFloat moving2robot (armPath []) =
        some { moving2robot with
          planned_path_info_ := { waypoints := 0, planned_path_positions := [] }
          all_time_steps_ := 65535
          is_moving_ := true } := rfl
    rw [hcb2] at hcb
    have harmed := Option.some.inj hcb
    obtain ⟨sk, hsk, hmk⟩ := h 65534 (by omega)
    have hdone := stateAfter_done
      ({ moving2robot with
          planned_path_info_ := { waypoints := 0, planned_path_positions := [] }
          all_time_steps_ := 65535
          is_moving_ := true } : ArmController ℚ) rfl (by decide) (by decide)
      (fun j _ => ⟨[], goalsAt_without_reads _ (Or.inl rfl)⟩) 65534 (by decide)
    rw [← harmed, hdone] at hsk
    rw [← Option.some.inj hsk] at hmk
    exact Bool.noConfusion hmk
  · rintro ⟨toFloat, armed, r, hcb, hp⟩
    have hcb2 : displayPlannedPathMsgCallback toFloat idle4 (armPath []) = some armedEmpty := rfl
    rw [hcb2] at hcb
    rw [← Option.some.inj hcb] at hp
    have hnone : process armedEmpty = none := rfl
    rw [hnone] at hp
    exact Option.noConfusion hp

end ArmController

end open_manipulator
